import Mathlib

/-!
Shallow embedding of the event-driven idempotent data pipeline
(`lambda_handler.py` and `src/storage.py`) together with models of its
collaborators (`cleaning.normalize_dataframe`, `validation.validate_dataframe`,
`utils.calculate_hash`, CSV parsing/serialization), which are imported by the
handler but whose sources are not part of the repository snapshot; those are
modelled from the specification and marked as such.

Bytes are `List Nat`; a tabular dataset is a column list plus a row list.
Storage is an association list keyed by (bucket, key), plus a set of
access-denied locations so that client errors other than NotFound can be
modelled.  The handler is embedded as a function from storage state and
trigger event to a run result, an effect trace, and the new storage state.
-/

namespace Pipeline

abbrev Bytes := List Nat

/-- A tabular dataset: ordered column names and ordered rows of cells
(the embedding of a pandas DataFrame as used by the handler). -/
structure Dataset where
  columns : List String
  rows : List (List String)
deriving DecidableEq, Repr

/-- Storage-client error, the embedding of `botocore.exceptions.ClientError`
distinguished by its cause. -/
inductive ClientError where
  | notFound
  | accessDenied
deriving DecidableEq, Repr

/-- The S3 world state: stored objects keyed by (bucket, key), plus the set of
locations for which requests fail with an access-denied client error. -/
structure S3State where
  objects : List ((String × String) × Bytes)
  denied : List (String × String)
deriving DecidableEq, Repr

def S3State.lookupObj (s : S3State) (b k : String) : Option Bytes :=
  match s.objects.find? (fun p => decide (p.1 = (b, k))) with
  | some p => some p.2
  | none => none

def S3State.put (s : S3State) (b k : String) (body : Bytes) : S3State :=
  { objects := ((b, k), body) :: s.objects, denied := s.denied }

/-- Embedding of `s3_client.head_object`: metadata request that fails with a
`ClientError` when the location is denied or the object is absent. -/
def head_object (s : S3State) (b k : String) : Except ClientError Unit :=
  if (b, k) ∈ s.denied then .error .accessDenied
  else
    match s.lookupObj b k with
    | some _ => .ok ()
    | none => .error .notFound

/-- Embedding of `s3_client.get_object` followed by reading the body. -/
def get_object (s : S3State) (b k : String) : Except ClientError Bytes :=
  if (b, k) ∈ s.denied then .error .accessDenied
  else
    match s.lookupObj b k with
    | some o => .ok o
    | none => .error .notFound

/-- Embedding of `storage.download_file`: returns raw bytes, propagating any
client error uncaught. -/
def download_file (s : S3State) (bucket key : String) : Except ClientError Bytes :=
  get_object s bucket key

def stringToBytes (s : String) : Bytes :=
  s.data.map Char.toNat

def bytesToString (b : Bytes) : String :=
  String.mk (b.map Char.ofNat)

/-- Modelled from the spec: CSV serialization used by `storage.upload_file`
(`df.to_csv(..., index=False)`, an external pandas adapter): a header line of
the column names followed by one comma-joined line per row. -/
def to_csv (d : Dataset) : Bytes :=
  stringToBytes
    (String.intercalate "\n"
      ((String.intercalate "," d.columns) :: d.rows.map (String.intercalate ",")))

/-- Embedding of `storage.upload_file`: serializes the DataFrame to CSV and
stores it at (bucket, key) with overwrite semantics. -/
def upload_file (s : S3State) (bucket key : String) (df : Dataset) : S3State :=
  s.put bucket key (to_csv df)

/-- Embedding of `storage.file_exists`: issues a HEAD request, returns `true`
on success and `false` on any `ClientError` (the source catches the whole
`botocore.exceptions.ClientError` class). -/
def file_exists (s : S3State) (bucket key : String) : Bool :=
  match head_object s bucket key with
  | .ok _ => true
  | .error _ => false

/-- Modelled from the spec: `utils.calculate_hash` is imported by the handler
but not part of the repository snapshot.  The spec requires a deterministic
fixed-length digest of the raw bytes (MD5 in the source docs), depending on
nothing but the byte content; modelled as a pure rolling digest. -/
def calculate_hash (b : Bytes) : String :=
  Nat.repr (b.foldl (fun acc x => (acc * 131 + x) % 4294967296) 7)

def isSpaceChar (c : Char) : Bool :=
  c == Char.ofNat 32 || c == Char.ofNat 9 || c == Char.ofNat 10 || c == Char.ofNat 13

def lowerChar (c : Char) : Char :=
  if 65 ≤ c.toNat && c.toNat ≤ 90 then Char.ofNat (c.toNat + 32) else c

def trimChars (l : List Char) : List Char :=
  ((l.dropWhile isSpaceChar).reverse.dropWhile isSpaceChar).reverse

def canonName (s : String) : String :=
  String.mk (trimChars (s.data.map lowerChar))

def canonCell (s : String) : String :=
  String.mk (trimChars s.data)

/-- Modelled from the spec: `cleaning.normalize_dataframe` is imported by the
handler but not part of the repository snapshot.  Per the spec it
canonicalizes column names (case, whitespace) and trims string cell values,
deterministically and totally. -/
def normalize_dataframe (d : Dataset) : Dataset :=
  { columns := d.columns.map canonName, rows := d.rows.map (List.map canonCell) }

/-- Modelled from the spec: the required-column set of the validator, taken
from the spec scenarios (`user_id`, `email`, `age` schema; `user_id` is the
primary identifier, a row missing `email` is invalid). -/
def requiredColumns : List String :=
  ["user_id", "email", "age"]

def cellValue (cols row : List String) (c : String) : Option String :=
  match cols.indexOf? c with
  | some i => row.get? i
  | none => none

/-- Modelled from the spec: per-row validity check of the validator (required
fields present and non-empty). -/
def rowIsValid (cols row : List String) : Bool :=
  requiredColumns.all fun c =>
    match cellValue cols row c with
    | some v => v != ""
    | none => false

/-- Modelled from the spec: `validation.validate_dataframe` is imported by the
handler but not part of the repository snapshot.  Per the spec it raises a
schema error (a `ValueError` at the call site) when a required column is
absent, and otherwise partitions the rows into valid and invalid subsets. -/
def validate_dataframe (d : Dataset) : Except String (Dataset × Dataset) :=
  if requiredColumns.all (fun c => d.columns.contains c) then
    .ok
      ({ columns := d.columns, rows := d.rows.filter (fun r => rowIsValid d.columns r) },
       { columns := d.columns, rows := d.rows.filter (fun r => !rowIsValid d.columns r) })
  else
    .error "missing required columns"

/-- Modelled from the spec: `pd.read_csv` over an in-memory buffer (external
pandas adapter wrapped by `load_into_dataframe`): the first newline-separated
line is the header, the remaining lines are rows, cells split on commas. -/
def load_into_dataframe (b : Bytes) : Dataset :=
  match (b.splitOn 10).map (fun line => (line.splitOn 44).map bytesToString) with
  | [] => { columns := [], rows := [] }
  | header :: rest => { columns := header, rows := rest }

/-- Embedding of `pandas.DataFrame.drop_duplicates` with default
`keep="first"` (the call site `valid_df.drop_duplicates(subset=["user_id"])`):
keep a row iff its key was not seen on an earlier row. -/
def dedupRowsAux (key : List String → Option String) (seen : List (Option String)) :
    List (List String) → List (List String)
  | [] => []
  | r :: rs =>
    if key r ∈ seen then dedupRowsAux key seen rs
    else r :: dedupRowsAux key (key r :: seen) rs

def Dataset.userId (d : Dataset) (row : List String) : Option String :=
  cellValue d.columns row "user_id"

/-- The deduplication step of the handler (line 132 of `lambda_handler.py`):
`valid_df.drop_duplicates(subset=["user_id"])`. -/
def drop_duplicates_user_id (d : Dataset) : Dataset :=
  { columns := d.columns,
    rows := dedupRowsAux (fun r => cellValue d.columns r "user_id") [] d.rows }

/-- One record of the trigger event: the nested `s3.bucket.name` and
`s3.object.key` fields (absent field = missing key in the event dict), plus
whatever other metadata the record carries. -/
structure S3EventRecord where
  bucketName : Option String
  objectKey : Option String
  extraMeta : List (String × String)
deriving DecidableEq, Repr

/-- The trigger event: an optional `Records` list (absent = missing key). -/
structure S3Event where
  records : Option (List S3EventRecord)
deriving DecidableEq, Repr

/-- Embedding of `extract_s3_event`: reads `event["Records"][0]` and its
nested bucket name and object key; any missing piece raises in the source,
embedded as `none`. -/
def extract_s3_event (e : S3Event) : Option (String × String) :=
  match e.records with
  | some (r :: _) =>
    match r.bucketName, r.objectKey with
    | some b, some k => some (b, k)
    | _, _ => none
  | _ => none

/-- The two derived output keys (lines 108-109 of `lambda_handler.py`). -/
def processedKeyFor (h : String) : String :=
  "processed/users_cleaned_" ++ h ++ ".csv"

def errorKeyFor (h : String) : String :=
  "error/invalid_rows_" ++ h ++ ".csv"

/-- Observable effect of one handler run: storage interactions, processing
stages, and log lines, in order. -/
inductive Effect where
  | downloadE (bucket key : String)
  | existsE (bucket key : String)
  | parseE
  | normalizeE
  | validateE
  | uploadE (bucket key : String) (df : Dataset)
  | logSkip
  | logSchemaError
  | logMetrics (file hash : String) (total valid invalid : Nat)
deriving DecidableEq, Repr

/-- Terminal outcome of one handler run. -/
inductive RunResult where
  | badEvent
  | transportError (e : ClientError)
  | skippedDuplicate
  | schemaFailed
  | reported (total valid invalid : Nat)
deriving DecidableEq, Repr

/-- Embedding of `lambda_handler`: returns the terminal outcome, the ordered
effect trace, and the storage state after the run.  `badEvent` is the
uncaught KeyError/IndexError from `extract_s3_event`, `transportError` the
uncaught client error from `download_file`; both abort before any further
work.  In the schema-error branch the source returns right after the error
upload, before the metrics log. -/
def lambda_handler (s : S3State) (e : S3Event) : RunResult × List Effect × S3State :=
  match extract_s3_event e with
  | none => (.badEvent, [], s)
  | some (bucket, key) =>
    match download_file s bucket key with
    | .error err => (.transportError err, [.downloadE bucket key], s)
    | .ok file_bytes =>
      let file_hash := calculate_hash file_bytes
      let processed_key := processedKeyFor file_hash
      let error_key := errorKeyFor file_hash
      if file_exists s bucket processed_key then
        (.skippedDuplicate,
         [.downloadE bucket key, .existsE bucket processed_key, .logSkip], s)
      else
        let df0 := load_into_dataframe file_bytes
        let total_rows := df0.rows.length
        let df := normalize_dataframe df0
        match validate_dataframe df with
        | .error _ =>
          (.schemaFailed,
           [.downloadE bucket key, .existsE bucket processed_key, .parseE,
            .normalizeE, .validateE, .uploadE bucket error_key df, .logSchemaError],
           upload_file s bucket error_key df)
        | .ok (valid0, invalid_df) =>
          let valid_df := drop_duplicates_user_id valid0
          let valid_rows := valid_df.rows.length
          let invalid_rows := invalid_df.rows.length
          let s1 := if valid_rows > 0 then upload_file s bucket processed_key valid_df else s
          let s2 := if invalid_rows > 0 then upload_file s1 bucket error_key invalid_df else s1
          (.reported total_rows valid_rows invalid_rows,
           [.downloadE bucket key, .existsE bucket processed_key, .parseE,
            .normalizeE, .validateE]
           ++ (if valid_rows > 0 then [.uploadE bucket processed_key valid_df] else [])
           ++ (if invalid_rows > 0 then [.uploadE bucket error_key invalid_df] else [])
           ++ [.logMetrics key file_hash total_rows valid_rows invalid_rows],
           s2)

/-! ## Concrete scenario data -/

def headerOnlyCsv : Bytes := stringToBytes "user_id,email,age"

def noUserIdCsv : Bytes := stringToBytes "email,age\na@b.c,5"

def sampleCsv : Bytes :=
  stringToBytes "user_id,email,age\n7,a@b.c,30\n7,x@y.z,31\n8,c@d.e,22"

def mixedCsv : Bytes :=
  stringToBytes "user_id,email,age\n7,a@b.c,30\n8,,22"

def demoEvent (k : String) : S3Event :=
  ⟨some [⟨some "B", some k, []⟩]⟩

def stateWith (bs : Bytes) : S3State :=
  ⟨[(("B", "in1.csv"), bs), (("B", "in2.csv"), bs)], []⟩

def Effect.isMetricsLog : Effect → Bool
  | .logMetrics _ _ _ _ _ => true
  | _ => false

/-- The valid partition the sample CSV yields after normalization, validation
and deduplication (the second row with `user_id = 7` removed). -/
def sampleProcessedDf : Dataset :=
  { columns := ["user_id", "email", "age"],
    rows := [["7", "a@b.c", "30"], ["8", "c@d.e", "22"]] }

/-- The valid partition of the mixed CSV (one well-formed row). -/
def mixedValidDf : Dataset :=
  { columns := ["user_id", "email", "age"], rows := [["7", "a@b.c", "30"]] }

/-- The invalid partition of the mixed CSV (the row with an empty email). -/
def mixedInvalidDf : Dataset :=
  { columns := ["user_id", "email", "age"], rows := [["8", "", "22"]] }

/-! ## Helper lemmas -/

theorem processedKeyFor_ne_errorKeyFor (a b : String) :
    processedKeyFor a ≠ errorKeyFor b := by
  intro heq
  have hd : (processedKeyFor a).data = (errorKeyFor b).data := congrArg String.data heq
  simp only [processedKeyFor, errorKeyFor, String.data_append, List.cons_append] at hd
  injection hd with hc _
  exact absurd hc (by decide)

theorem dedupRowsAux_filter (key : List String → Option String) (k : Option String) :
    ∀ (l : List (List String)) (seen : List (Option String)),
      (dedupRowsAux key seen l).filter (fun r => decide (key r = k)) =
        if k ∈ seen then [] else (l.filter (fun r => decide (key r = k))).take 1 := by
  intro l
  induction l with
  | nil => intro seen; simp [dedupRowsAux]
  | cons r rs ih =>
    intro seen
    by_cases hks : key r ∈ seen
    · have hstep : dedupRowsAux key seen (r :: rs) = dedupRowsAux key seen rs := by
        simp [dedupRowsAux, hks]
      rw [hstep, ih seen]
      by_cases hk : k ∈ seen
      · simp [hk]
      · have hrk : ¬ key r = k := fun h => hk (h ▸ hks)
        simp [hk, List.filter_cons, hrk]
    · have hstep : dedupRowsAux key seen (r :: rs) =
          r :: dedupRowsAux key (key r :: seen) rs := by
        simp [dedupRowsAux, hks]
      rw [hstep]
      by_cases hrk : key r = k
      · have hk : k ∉ seen := fun h => hks (hrk ▸ h)
        have hmem : k ∈ key r :: seen := by simp [hrk]
        rw [List.filter_cons, ih (key r :: seen), if_pos hmem]
        simp [hrk, hk, List.filter_cons]
      · by_cases hk : k ∈ seen
        · have hmem : k ∈ key r :: seen := List.mem_cons_of_mem _ hk
          rw [List.filter_cons, ih (key r :: seen), if_pos hmem, if_pos hk]
          simp [hrk]
        · have hmem : k ∉ key r :: seen := by
            intro hmm
            rcases List.mem_cons.mp hmm with h | h
            · exact hrk h.symm
            · exact hk h
          rw [List.filter_cons, ih (key r :: seen), if_neg hmem, if_neg hk,
            List.filter_cons]
          simp [hrk]

theorem dedupRowsAux_map_key_nodup (key : List String → Option String) :
    ∀ (l : List (List String)) (seen : List (Option String)),
      ((dedupRowsAux key seen l).map key).Nodup ∧
        ∀ x ∈ (dedupRowsAux key seen l).map key, x ∉ seen := by
  intro l
  induction l with
  | nil => intro seen; simp [dedupRowsAux]
  | cons r rs ih =>
    intro seen
    by_cases hks : key r ∈ seen
    · simpa [dedupRowsAux, hks] using ih seen
    · have h2 := ih (key r :: seen)
      rw [show dedupRowsAux key seen (r :: rs) =
          r :: dedupRowsAux key (key r :: seen) rs by simp [dedupRowsAux, hks]]
      constructor
      · rw [List.map_cons, List.nodup_cons]
        exact ⟨fun hk => (h2.2 _ hk) (by simp), h2.1⟩
      · intro x hx
        rw [List.map_cons, List.mem_cons] at hx
        rcases hx with rfl | hx
        · exact hks
        · intro hxs
          exact (h2.2 _ hx) (List.mem_cons_of_mem _ hxs)

theorem run_skips_of_exists (s : S3State) (e : S3Event) (b k : String) (bytes : Bytes)
    (hx : extract_s3_event e = some (b, k))
    (hd : download_file s b k = .ok bytes)
    (hex : file_exists s b (processedKeyFor (calculate_hash bytes)) = true) :
    lambda_handler s e =
      (.skippedDuplicate,
       [.downloadE b k, .existsE b (processedKeyFor (calculate_hash bytes)), .logSkip],
       s) := by
  simp only [lambda_handler, hx, hd, hex, if_true]

theorem run_schema_eq (s : S3State) (e : S3Event) (b k : String) (bytes : Bytes)
    (msg : String)
    (hx : extract_s3_event e = some (b, k))
    (hd : download_file s b k = .ok bytes)
    (hex : file_exists s b (processedKeyFor (calculate_hash bytes)) = false)
    (hval : validate_dataframe (normalize_dataframe (load_into_dataframe bytes)) =
      Except.error msg) :
    lambda_handler s e =
      (RunResult.schemaFailed,
       [Effect.downloadE b k,
        Effect.existsE b (processedKeyFor (calculate_hash bytes)),
        Effect.parseE, Effect.normalizeE, Effect.validateE,
        Effect.uploadE b (errorKeyFor (calculate_hash bytes))
          (normalize_dataframe (load_into_dataframe bytes)),
        Effect.logSchemaError],
       upload_file s b (errorKeyFor (calculate_hash bytes))
         (normalize_dataframe (load_into_dataframe bytes))) := by
  simp only [lambda_handler, hx, hd, hex, hval, Bool.false_eq_true, if_false]

theorem run_reported_eq (s : S3State) (e : S3Event) (b k : String) (bytes : Bytes)
    (valid0 invalid0 : Dataset)
    (hx : extract_s3_event e = some (b, k))
    (hd : download_file s b k = .ok bytes)
    (hex : file_exists s b (processedKeyFor (calculate_hash bytes)) = false)
    (hval : validate_dataframe (normalize_dataframe (load_into_dataframe bytes)) =
      Except.ok (valid0, invalid0)) :
    lambda_handler s e =
      (RunResult.reported (load_into_dataframe bytes).rows.length
          (drop_duplicates_user_id valid0).rows.length invalid0.rows.length,
       [Effect.downloadE b k,
        Effect.existsE b (processedKeyFor (calculate_hash bytes)),
        Effect.parseE, Effect.normalizeE, Effect.validateE]
        ++ (if (drop_duplicates_user_id valid0).rows.length > 0 then
              [Effect.uploadE b (processedKeyFor (calculate_hash bytes))
                (drop_duplicates_user_id valid0)]
            else [])
        ++ (if invalid0.rows.length > 0 then
              [Effect.uploadE b (errorKeyFor (calculate_hash bytes)) invalid0]
            else [])
        ++ [Effect.logMetrics k (calculate_hash bytes)
              (load_into_dataframe bytes).rows.length
              (drop_duplicates_user_id valid0).rows.length invalid0.rows.length],
       (if invalid0.rows.length > 0 then
          upload_file
            (if (drop_duplicates_user_id valid0).rows.length > 0 then
              upload_file s b (processedKeyFor (calculate_hash bytes))
                (drop_duplicates_user_id valid0)
             else s)
            b (errorKeyFor (calculate_hash bytes)) invalid0
        else
          (if (drop_duplicates_user_id valid0).rows.length > 0 then
            upload_file s b (processedKeyFor (calculate_hash bytes))
              (drop_duplicates_user_id valid0)
           else s))) := by
  simp only [lambda_handler, hx, hd, hex, hval, Bool.false_eq_true, if_false]

theorem run_badEvent_eq (s : S3State) (e : S3Event)
    (hx : extract_s3_event e = none) :
    lambda_handler s e = (.badEvent, [], s) := by
  simp [lambda_handler, hx]

theorem run_transport_eq (s : S3State) (e : S3Event) (b k : String) (err : ClientError)
    (hx : extract_s3_event e = some (b, k))
    (hd : download_file s b k = .error err) :
    lambda_handler s e = (.transportError err, [.downloadE b k], s) := by
  simp [lambda_handler, hx, hd]

theorem lookupObj_put_same (s : S3State) (b k : String) (body : Bytes) :
    (s.put b k body).lookupObj b k = some body := by
  simp [S3State.put, S3State.lookupObj, List.find?]

theorem lookupObj_put_other (s : S3State) (b k b2 k2 : String) (body : Bytes)
    (h : (b2, k2) ≠ (b, k)) :
    (s.put b2 k2 body).lookupObj b k = s.lookupObj b k := by
  simp [S3State.put, S3State.lookupObj, List.find?, h]

theorem denied_upload_file (s : S3State) (b k : String) (d : Dataset) :
    (upload_file s b k d).denied = s.denied := rfl

theorem file_exists_of_lookup (s : S3State) (b k : String) (body : Bytes)
    (hlook : s.lookupObj b k = some body) (hden : (b, k) ∉ s.denied) :
    file_exists s b k = true := by
  simp [file_exists, head_object, hden, hlook]

theorem processed_present_of_reported (s : S3State) (e : S3Event) (b k : String)
    (bytes : Bytes) (t v i : Nat)
    (hx : extract_s3_event e = some (b, k))
    (hd : download_file s b k = .ok bytes)
    (hr : (lambda_handler s e).1 = .reported t v i)
    (hv : 0 < v) :
    (∃ body, ((lambda_handler s e).2.2).lookupObj b
        (processedKeyFor (calculate_hash bytes)) = some body) ∧
    ((lambda_handler s e).2.2).denied = s.denied := by
  cases hex : file_exists s b (processedKeyFor (calculate_hash bytes)) with
  | true =>
    rw [run_skips_of_exists s e b k bytes hx hd hex] at hr
    exact absurd hr (by simp)
  | false =>
    cases hval : validate_dataframe (normalize_dataframe (load_into_dataframe bytes)) with
    | error msg =>
      rw [run_schema_eq s e b k bytes msg hx hd hex hval] at hr
      exact absurd hr (by simp)
    | ok p =>
      obtain ⟨valid0, invalid0⟩ := p
      rw [run_reported_eq s e b k bytes valid0 invalid0 hx hd hex hval] at hr ⊢
      have hr2 : RunResult.reported (load_into_dataframe bytes).rows.length
          (drop_duplicates_user_id valid0).rows.length invalid0.rows.length =
          RunResult.reported t v i := hr
      have hvv : (drop_duplicates_user_id valid0).rows.length = v := by
        injection hr2
      have hvp : (drop_duplicates_user_id valid0).rows.length > 0 := hvv ▸ hv
      have hne : ((b : String), errorKeyFor (calculate_hash bytes)) ≠
          (b, processedKeyFor (calculate_hash bytes)) := by
        intro hpair
        exact processedKeyFor_ne_errorKeyFor (calculate_hash bytes) (calculate_hash bytes)
          (congrArg Prod.snd hpair).symm
      by_cases hip : invalid0.rows.length > 0
      · constructor
        · refine ⟨to_csv (drop_duplicates_user_id valid0), ?_⟩
          show ((if invalid0.rows.length > 0 then _ else _) : S3State).lookupObj _ _ = _
          rw [if_pos hip, if_pos hvp]
          rw [upload_file, lookupObj_put_other _ _ _ _ _ _ hne, upload_file,
            lookupObj_put_same]
        · show ((if invalid0.rows.length > 0 then _ else _) : S3State).denied = _
          rw [if_pos hip, if_pos hvp]
          rfl
      · constructor
        · refine ⟨to_csv (drop_duplicates_user_id valid0), ?_⟩
          show ((if invalid0.rows.length > 0 then _ else _) : S3State).lookupObj _ _ = _
          rw [if_neg hip, if_pos hvp, upload_file, lookupObj_put_same]
        · show ((if invalid0.rows.length > 0 then _ else _) : S3State).denied = _
          rw [if_neg hip, if_pos hvp]
          rfl

/-! ## Claims -/

/-- C1 counterexample: a header-only CSV (no data rows) completes full
processing on the first run — terminal `Reported` state, metrics emitted —
yet a second run on byte-identical content under a different source key does
not terminate in `SkippedDuplicate`: it performs full processing again,
because the first run's valid partition was empty, so no processed artifact
was written and the idempotency gate finds nothing. -/
theorem C1_counterexample :
    (lambda_handler (stateWith headerOnlyCsv) (demoEvent "in1.csv")).1 =
        .reported 0 0 0 ∧
    (lambda_handler (lambda_handler (stateWith headerOnlyCsv) (demoEvent "in1.csv")).2.2
        (demoEvent "in2.csv")).1 = .reported 0 0 0 ∧
    (lambda_handler (lambda_handler (stateWith headerOnlyCsv) (demoEvent "in1.csv")).2.2
        (demoEvent "in2.csv")).1 ≠ .skippedDuplicate := by
  decide

/-- C1 amended: if the first run on the downloaded bytes completed full
processing with a non-empty deduplicated valid partition (so a processed
artifact was written), then a second run on byte-identical content — under
any source key — terminates at the idempotency gate in `SkippedDuplicate`,
its only effects the download, the existence check and a skip notice, and
leaves storage unchanged. -/
theorem C1_second_run_skips_after_processed_write (s : S3State) (e1 e2 : S3Event)
    (b k1 k2 : String) (bytes : Bytes) (t v i : Nat)
    (hx1 : extract_s3_event e1 = some (b, k1))
    (hx2 : extract_s3_event e2 = some (b, k2))
    (hd1 : download_file s b k1 = .ok bytes)
    (hr : (lambda_handler s e1).1 = .reported t v i)
    (hv : 0 < v)
    (hd2 : download_file (lambda_handler s e1).2.2 b k2 = .ok bytes)
    (hden : (b, processedKeyFor (calculate_hash bytes)) ∉ s.denied) :
    lambda_handler (lambda_handler s e1).2.2 e2 =
      (.skippedDuplicate,
       [.downloadE b k2, .existsE b (processedKeyFor (calculate_hash bytes)), .logSkip],
       (lambda_handler s e1).2.2) := by
  obtain ⟨⟨body, hlook⟩, hdeq⟩ :=
    processed_present_of_reported s e1 b k1 bytes t v i hx1 hd1 hr hv
  have hden1 : (b, processedKeyFor (calculate_hash bytes)) ∉
      ((lambda_handler s e1).2.2).denied := by
    rw [hdeq]; exact hden
  have hex := file_exists_of_lookup _ b _ body hlook hden1
  exact run_skips_of_exists _ e2 b k2 bytes hx2 hd2 hex

/-- C1 witness: the sample CSV is fully processed on the first run (3 rows,
2 valid after dedup, 0 invalid) and a second delivery of the same bytes under
the key `in2.csv` is skipped at the gate. -/
theorem C1_second_run_skips_after_processed_write_witness :
    lambda_handler (lambda_handler (stateWith sampleCsv) (demoEvent "in1.csv")).2.2
        (demoEvent "in2.csv") =
      (.skippedDuplicate,
       [.downloadE "B" "in2.csv",
        .existsE "B" (processedKeyFor (calculate_hash sampleCsv)), .logSkip],
       (lambda_handler (stateWith sampleCsv) (demoEvent "in1.csv")).2.2) :=
  C1_second_run_skips_after_processed_write (stateWith sampleCsv)
    (demoEvent "in1.csv") (demoEvent "in2.csv") "B" "in1.csv" "in2.csv"
    sampleCsv 3 2 0 rfl rfl rfl (by decide) (by decide) rfl (by decide)

/-- C2 (evaluating the code at the failing input): on input missing the
`user_id` column the run terminates in `SchemaFailed` and its effect trace
contains no metrics record at all — the source returns right after the
whole-file error upload, before the metrics log line is reached, contrary to
the claim (and to the handler's own docstring, which promises metrics
regardless of outcome). -/
theorem C2_schema_error_emits_no_metrics :
    (lambda_handler (stateWith noUserIdCsv) (demoEvent "in1.csv")).1 = .schemaFailed ∧
    ((lambda_handler (stateWith noUserIdCsv) (demoEvent "in1.csv")).2.1.all
      (fun x => ! x.isMetricsLog)) = true := by
  decide

/-- C4: the output locations are derived solely from the content fingerprint
via the fixed templates: in any run that downloads byte content `bytes`,
every upload effect targets either
`processed/users_cleaned_{fingerprint}.csv` or
`error/invalid_rows_{fingerprint}.csv` with `fingerprint` a function of the
bytes alone, and the idempotency existence check targets the former — no
dependence on the source file name, bucket key, or other trigger metadata. -/
theorem C4_output_keys_content_addressed (s : S3State) (e : S3Event) (b k : String)
    (bytes : Bytes)
    (hx : extract_s3_event e = some (b, k))
    (hd : download_file s b k = .ok bytes) :
    (∀ bk ky d, Effect.uploadE bk ky d ∈ (lambda_handler s e).2.1 →
      ky = processedKeyFor (calculate_hash bytes) ∨
        ky = errorKeyFor (calculate_hash bytes)) ∧
    (∀ bk ky, Effect.existsE bk ky ∈ (lambda_handler s e).2.1 →
      ky = processedKeyFor (calculate_hash bytes)) := by
  cases hex : file_exists s b (processedKeyFor (calculate_hash bytes)) with
  | true =>
    rw [run_skips_of_exists s e b k bytes hx hd hex]
    constructor
    · intro bk ky d hmem
      simp at hmem
    · intro bk ky hmem
      simp at hmem
      exact hmem.2
  | false =>
    cases hval : validate_dataframe (normalize_dataframe (load_into_dataframe bytes)) with
    | error msg =>
      rw [run_schema_eq s e b k bytes msg hx hd hex hval]
      constructor
      · intro bk ky d hmem
        simp at hmem
        exact Or.inr hmem.2.1
      · intro bk ky hmem
        simp at hmem
        exact hmem.2
    | ok p =>
      obtain ⟨valid0, invalid0⟩ := p
      rw [run_reported_eq s e b k bytes valid0 invalid0 hx hd hex hval]
      constructor
      · intro bk ky d hmem
        by_cases hvp : (drop_duplicates_user_id valid0).rows.length > 0
        · by_cases hip : invalid0.rows.length > 0
          · simp [hvp, hip] at hmem
            rcases hmem with ⟨_, h2, _⟩ | ⟨_, h2, _⟩
            · exact Or.inl h2
            · exact Or.inr h2
          · simp [hvp, hip] at hmem
            exact Or.inl hmem.2.1
        · by_cases hip : invalid0.rows.length > 0
          · simp [hvp, hip] at hmem
            exact Or.inr hmem.2.1
          · simp [hvp, hip] at hmem
      · intro bk ky hmem
        by_cases hvp : (drop_duplicates_user_id valid0).rows.length > 0 <;>
          by_cases hip : invalid0.rows.length > 0 <;>
          simp [hvp, hip] at hmem <;>
          exact hmem.2

set_option maxRecDepth 10000 in
/-- C4 witness: the processed key of the sample run is the one appearing in
its upload effect. -/
theorem C4_output_keys_content_addressed_witness :
    "processed/users_cleaned_3832876621.csv" =
        processedKeyFor (calculate_hash sampleCsv) ∨
    "processed/users_cleaned_3832876621.csv" =
        errorKeyFor (calculate_hash sampleCsv) :=
  (C4_output_keys_content_addressed (stateWith sampleCsv) (demoEvent "in1.csv")
      "B" "in1.csv" sampleCsv rfl rfl).1
    "B" "processed/users_cleaned_3832876621.csv" sampleProcessedDf (by decide)

/-- C6: on the successful path (gate passed, validation succeeded), the
deduplicated valid partition is uploaded to the processed location iff it is
non-empty, and the invalid partition is uploaded to the error location iff it
is non-empty; an empty partition produces no artifact. -/
theorem C6_persist_iff_nonempty (s : S3State) (e : S3Event) (b k : String)
    (bytes : Bytes) (valid0 invalid0 : Dataset)
    (hx : extract_s3_event e = some (b, k))
    (hd : download_file s b k = .ok bytes)
    (hex : file_exists s b (processedKeyFor (calculate_hash bytes)) = false)
    (hval : validate_dataframe (normalize_dataframe (load_into_dataframe bytes)) =
      Except.ok (valid0, invalid0)) :
    ((∃ d, Effect.uploadE b (processedKeyFor (calculate_hash bytes)) d ∈
        (lambda_handler s e).2.1) ↔ (drop_duplicates_user_id valid0).rows.length > 0) ∧
    ((∃ d, Effect.uploadE b (errorKeyFor (calculate_hash bytes)) d ∈
        (lambda_handler s e).2.1) ↔ invalid0.rows.length > 0) := by
  rw [run_reported_eq s e b k bytes valid0 invalid0 hx hd hex hval]
  have hne : processedKeyFor (calculate_hash bytes) ≠ errorKeyFor (calculate_hash bytes) :=
    processedKeyFor_ne_errorKeyFor _ _
  by_cases hvp : (drop_duplicates_user_id valid0).rows.length > 0 <;>
    by_cases hip : invalid0.rows.length > 0 <;>
    simp [hvp, hip, hne, hne.symm]

/-- C6 witness: the mixed CSV (one valid row, one row with an empty email)
writes both a processed and an error artifact. -/
theorem C6_persist_iff_nonempty_witness :
    ((∃ d, Effect.uploadE "B" (processedKeyFor (calculate_hash mixedCsv)) d ∈
        (lambda_handler (stateWith mixedCsv) (demoEvent "in1.csv")).2.1) ↔
      (drop_duplicates_user_id mixedValidDf).rows.length > 0) ∧
    ((∃ d, Effect.uploadE "B" (errorKeyFor (calculate_hash mixedCsv)) d ∈
        (lambda_handler (stateWith mixedCsv) (demoEvent "in1.csv")).2.1) ↔
      mixedInvalidDf.rows.length > 0) :=
  C6_persist_iff_nonempty (stateWith mixedCsv) (demoEvent "in1.csv") "B" "in1.csv"
    mixedCsv mixedValidDf mixedInvalidDf rfl rfl (by decide) rfl

/-- C7: when validation fails with a schema error, the entire normalized
dataset — the unmodified output of the normalization stage — is persisted to
the error location, the run terminates in `SchemaFailed`, and no upload to a
processed location of any fingerprint occurs: no partial or salvaged subset
is written. -/
theorem C7_schema_error_persists_whole_normalized (s : S3State) (e : S3Event)
    (b k : String) (bytes : Bytes) (msg : String)
    (hx : extract_s3_event e = some (b, k))
    (hd : download_file s b k = .ok bytes)
    (hex : file_exists s b (processedKeyFor (calculate_hash bytes)) = false)
    (hval : validate_dataframe (normalize_dataframe (load_into_dataframe bytes)) =
      Except.error msg) :
    lambda_handler s e =
      (RunResult.schemaFailed,
       [Effect.downloadE b k,
        Effect.existsE b (processedKeyFor (calculate_hash bytes)),
        Effect.parseE, Effect.normalizeE, Effect.validateE,
        Effect.uploadE b (errorKeyFor (calculate_hash bytes))
          (normalize_dataframe (load_into_dataframe bytes)),
        Effect.logSchemaError],
       upload_file s b (errorKeyFor (calculate_hash bytes))
         (normalize_dataframe (load_into_dataframe bytes))) ∧
    ∀ bk h2 d, Effect.uploadE bk (processedKeyFor h2) d ∉ (lambda_handler s e).2.1 := by
  have heq := run_schema_eq s e b k bytes msg hx hd hex hval
  refine ⟨heq, ?_⟩
  intro bk h2 d hmem
  rw [heq] at hmem
  simp at hmem
  exact processedKeyFor_ne_errorKeyFor h2 (calculate_hash bytes) hmem.2.1

/-- C7 witness: the CSV missing the `user_id` column is persisted whole — its
normalized form — to the error location, with no processed artifact. -/
theorem C7_schema_error_persists_whole_normalized_witness :
    lambda_handler (stateWith noUserIdCsv) (demoEvent "in1.csv") =
      (RunResult.schemaFailed,
       [Effect.downloadE "B" "in1.csv",
        Effect.existsE "B" (processedKeyFor (calculate_hash noUserIdCsv)),
        Effect.parseE, Effect.normalizeE, Effect.validateE,
        Effect.uploadE "B" (errorKeyFor (calculate_hash noUserIdCsv))
          (normalize_dataframe (load_into_dataframe noUserIdCsv)),
        Effect.logSchemaError],
       upload_file (stateWith noUserIdCsv) "B" (errorKeyFor (calculate_hash noUserIdCsv))
         (normalize_dataframe (load_into_dataframe noUserIdCsv))) :=
  (C7_schema_error_persists_whole_normalized (stateWith noUserIdCsv)
    (demoEvent "in1.csv") "B" "in1.csv" noUserIdCsv "missing required columns"
    rfl rfl (by decide) rfl).1

/-- C10: every dataset the handler uploads to a processed location (a key of
the form `processed/users_cleaned_{h}.csv`) has pairwise-distinct `user_id`
values: the mapped key column of its rows is duplicate-free. -/
theorem C10_processed_artifact_distinct_user_ids (s : S3State) (e : S3Event)
    (bk h : String) (d : Dataset)
    (hmem : Effect.uploadE bk (processedKeyFor h) d ∈ (lambda_handler s e).2.1) :
    (d.rows.map (fun r => cellValue d.columns r "user_id")).Nodup := by
  cases hx : extract_s3_event e with
  | none =>
    rw [run_badEvent_eq s e hx] at hmem
    simp at hmem
  | some p =>
    obtain ⟨b, k⟩ := p
    cases hd : download_file s b k with
    | error err =>
      rw [run_transport_eq s e b k err hx hd] at hmem
      simp at hmem
    | ok bytes =>
      cases hex : file_exists s b (processedKeyFor (calculate_hash bytes)) with
      | true =>
        rw [run_skips_of_exists s e b k bytes hx hd hex] at hmem
        simp at hmem
      | false =>
        cases hval : validate_dataframe (normalize_dataframe (load_into_dataframe bytes)) with
        | error msg =>
          rw [run_schema_eq s e b k bytes msg hx hd hex hval] at hmem
          simp at hmem
          exact absurd hmem.2.1 (processedKeyFor_ne_errorKeyFor _ _)
        | ok p2 =>
          obtain ⟨valid0, invalid0⟩ := p2
          rw [run_reported_eq s e b k bytes valid0 invalid0 hx hd hex hval] at hmem
          have hne : processedKeyFor h ≠ errorKeyFor (calculate_hash bytes) :=
            processedKeyFor_ne_errorKeyFor _ _
          by_cases hvp : (drop_duplicates_user_id valid0).rows.length > 0
          · by_cases hip : invalid0.rows.length > 0
            · simp [hvp, hip, hne] at hmem
              obtain ⟨h1, h2, rfl⟩ := hmem
              exact (dedupRowsAux_map_key_nodup
                (fun r => cellValue valid0.columns r "user_id") valid0.rows []).1
            · simp [hvp, hip, hne] at hmem
              obtain ⟨h1, h2, rfl⟩ := hmem
              exact (dedupRowsAux_map_key_nodup
                (fun r => cellValue valid0.columns r "user_id") valid0.rows []).1
          · by_cases hip : invalid0.rows.length > 0
            · simp [hvp, hip, hne] at hmem
            · simp [hvp, hip, hne] at hmem

set_option maxRecDepth 10000 in
/-- C10 witness: the processed artifact written for the sample CSV has
pairwise-distinct `user_id` values. -/
theorem C10_processed_artifact_distinct_user_ids_witness :
    (sampleProcessedDf.rows.map
      (fun r => cellValue sampleProcessedDf.columns r "user_id")).Nodup :=
  C10_processed_artifact_distinct_user_ids (stateWith sampleCsv)
    (demoEvent "in1.csv") "B" (calculate_hash sampleCsv) sampleProcessedDf (by decide)

/-- C5: deduplication by `user_id` retains exactly one record per distinct key
value, namely the first occurrence in the dataset's post-validation order: for
every key value, the retained rows with that key are exactly the first row of
the input carrying it.  The column schema is unchanged. -/
theorem C5_dedupe_keeps_first_occurrence (d : Dataset) (k : Option String) :
    (drop_duplicates_user_id d).rows.filter
        (fun r => decide (cellValue d.columns r "user_id" = k)) =
      (d.rows.filter (fun r => decide (cellValue d.columns r "user_id" = k))).take 1 ∧
    (drop_duplicates_user_id d).columns = d.columns := by
  constructor
  · rw [drop_duplicates_user_id]
    rw [dedupRowsAux_filter (fun r => cellValue d.columns r "user_id") k d.rows []]
    simp
  · rfl

/-- C3 counterexample: at a location whose HEAD request fails with an
access-denied client error (not NotFound), `file_exists` still returns the
boolean `false` instead of propagating the error; so it is not the case that
`false` is returned exactly on NotFound. -/
theorem C3_counterexample :
    file_exists ⟨[], [("B", "x.csv")]⟩ "B" "x.csv" = false ∧
    head_object ⟨[], [("B", "x.csv")]⟩ "B" "x.csv" = .error .accessDenied :=
  ⟨rfl, rfl⟩

/-- C3 amended: `file_exists` returns `true` iff the HEAD metadata request
succeeds, and returns `false` on every storage client error — access denied
exactly like NotFound; no storage error propagates out of it. -/
theorem C3_exists_false_on_any_client_error (s : S3State) (b k : String) :
    (file_exists s b k = true ↔ head_object s b k = .ok ()) ∧
    (file_exists s b k = false ↔ ∃ err, head_object s b k = .error err) := by
  rw [file_exists]
  cases h : head_object s b k with
  | ok u => cases u; simp
  | error err => simp

/-- C9: a trigger event with a missing or empty `Records` list, or whose first
record lacks the nested bucket-name or object-key field, makes event
extraction fail, and the run aborts with no effects at all — no download, no
hash, no upload — leaving storage unchanged. -/
theorem C9_malformed_event_aborts_early (s : S3State) (e : S3Event)
    (h : e.records = none ∨ e.records = some [] ∨
      ∃ r t, e.records = some (r :: t) ∧ (r.bucketName = none ∨ r.objectKey = none)) :
    extract_s3_event e = none ∧ lambda_handler s e = (.badEvent, [], s) := by
  have hx : extract_s3_event e = none := by
    rcases h with h | h | ⟨r, t, hrt, hf⟩
    · simp [extract_s3_event, h]
    · simp [extract_s3_event, h]
    · rcases hf with hb | hk
      · simp [extract_s3_event, hrt, hb]
      · cases hbn : r.bucketName <;> simp [extract_s3_event, hrt, hbn, hk]
  exact ⟨hx, by simp [lambda_handler, hx]⟩

/-- C9 witness: a concrete event with no `Records` key aborts the run with no
effects. -/
theorem C9_malformed_event_aborts_early_witness :
    extract_s3_event ⟨none⟩ = none ∧
    lambda_handler ⟨[], []⟩ ⟨none⟩ = (.badEvent, [], ⟨[], []⟩) :=
  C9_malformed_event_aborts_early ⟨[], []⟩ ⟨none⟩ (Or.inl rfl)

/-- C8: the handler honors only the first record of the trigger event — two
events whose first records agree on bucket name and object key produce the
same result, the same effect trace and the same final storage state, whatever
further records or extra metadata either event carries. -/
theorem C8_only_first_record_matters (s : S3State) (e1 e2 : S3Event)
    (r1 r2 : S3EventRecord) (t1 t2 : List S3EventRecord)
    (h1 : e1.records = some (r1 :: t1)) (h2 : e2.records = some (r2 :: t2))
    (hb : r1.bucketName = r2.bucketName) (hk : r1.objectKey = r2.objectKey) :
    lambda_handler s e1 = lambda_handler s e2 := by
  have hx : extract_s3_event e1 = extract_s3_event e2 := by
    simp only [extract_s3_event, h1, h2]
    rw [hb, hk]
  rw [lambda_handler, lambda_handler, hx]

/-- C8 witness: two concrete events with the same first-record location but
different extra metadata and different additional records run identically. -/
theorem C8_only_first_record_matters_witness :
    lambda_handler ⟨[], []⟩ ⟨some [⟨some "B", some "a.csv", [("eventTime", "t1")]⟩]⟩ =
      lambda_handler ⟨[], []⟩
        ⟨some [⟨some "B", some "a.csv", [("eventTime", "t2")]⟩,
               ⟨some "C", some "other.csv", []⟩]⟩ :=
  C8_only_first_record_matters ⟨[], []⟩ _ _ _ _ _ _ rfl rfl rfl rfl

end Pipeline
